import Mathlib

/-!
Shallow embedding of `node/src/chain_spec.rs` from the pop-node repository:
the chain-specification presets (`development_config`, `local_testnet_config`),
the genesis-state builder (`testnet_genesis`), the session-key bundler
(`pop_session_keys`) and the strict `Extensions` deserializer
(`#[serde(deny_unknown_fields)]`), together with theorems settling the
specification claims about them.
-/

namespace PopNode

/-- Modelled from the spec: `AccountId` comes from `pop_runtime`, which is not
under `src/`. The spec states the account identifier is derived
deterministically from a human-readable seed and is uniquely determined by its
seed, so it is represented by the seed string itself. -/
structure AccountId where
  seed : String
deriving DecidableEq, Repr

/-- Modelled from the spec: `AuraId` (the block-authoring public key type)
comes from `pop_runtime`/`sp_core`, not under `src/`. The spec states key
derivation is deterministic per seed, so the key is represented by its seed. -/
structure AuraId where
  seed : String
deriving DecidableEq, Repr

/-- Modelled from the spec: `pop_runtime::SessionKeys` is not under `src/`.
The spec describes it as a named-field bundle with exactly one role, "aura". -/
structure SessionKeys where
  aura : AuraId
deriving DecidableEq, Repr

/-- Modelled from the spec: `EXISTENTIAL_DEPOSIT` is a constant of
`pop_runtime`, not under `src/`; its numeric value is not given by the spec
and every claim uses it only symbolically, so a placeholder value is used. -/
def EXISTENTIAL_DEPOSIT : Nat := 1

/-- Modelled from the spec: `xcm::prelude::XCM_VERSION` is external; the spec
only requires it to be a fixed protocol constant. -/
def XCM_VERSION : Nat := 3

/-- The default XCM version to set in genesis config (`SAFE_XCM_VERSION`). -/
def SAFE_XCM_VERSION : Nat := XCM_VERSION

/-- The local para ID of Pop Network (`PARA_ID: u32 = 9090`). -/
def PARA_ID : Nat := 9090

/-- Modelled from the spec: `get_account_id_from_seed` composes the seed key
deriver and the account identity resolver (`sp_core`, external); the
composition is deterministic and seed-indexed, so it is the seed wrapper. -/
def get_account_id_from_seed (seed : String) : AccountId :=
  AccountId.mk seed

/-- Modelled from the spec: `get_collator_keys_from_seed` derives the aura key
from a seed via the external seed key deriver; deterministic per seed. -/
def get_collator_keys_from_seed (seed : String) : AuraId :=
  AuraId.mk seed

/-- `pop_session_keys` from the source: bundles the single aura key into the
runtime session-keys structure. -/
def pop_session_keys (keys : AuraId) : SessionKeys :=
  SessionKeys.mk keys

/-- The `Extensions` struct from the source: relay-chain name and para id. -/
structure Extensions where
  relay_chain : String
  para_id : Nat
deriving DecidableEq, Repr

/-- A top-level field value in an `Extensions` JSON document: the struct has
one string field and one integer field, so these two shapes suffice. -/
inductive FieldVal where
  | str (s : String)
  | num (n : Nat)
deriving DecidableEq, Repr

/-- State-passing core of the derived strict deserializer for `Extensions`
under `#[serde(deny_unknown_fields)]`: fields are consumed in document order;
an unknown field name, a duplicate field, or a wrongly-typed value aborts with
`none`; at the end both fields must have been seen. -/
def deserializeFields : List (String × FieldVal) → Option String → Option Nat → Option Extensions
  | [], some rc, some pid => some (Extensions.mk rc pid)
  | [], _, _ => none
  | (k, v) :: rest, rc, pid =>
    if k = "relay_chain" then
      match v, rc with
      | FieldVal.str s, none => deserializeFields rest (some s) pid
      | _, _ => none
    else if k = "para_id" then
      match v, pid with
      | FieldVal.num n, none => deserializeFields rest rc (some n)
      | _, _ => none
    else none

/-- Deserialize an `Extensions` document (a list of named top-level fields),
mirroring the serde-derived deserializer with `deny_unknown_fields`. -/
def Extensions.deserialize (doc : List (String × FieldVal)) : Option Extensions :=
  deserializeFields doc none none

/-- The genesis document produced by `testnet_genesis`: one Lean field per
JSON path set by the `serde_json::json!` literal in the source. -/
structure GenesisState where
  parachainId : Nat
  invulnerables : List AccountId
  candidacyBond : Nat
  sessionKeys : List (AccountId × AccountId × SessionKeys)
  safeXcmVersion : Option Nat
  sudoKey : Option AccountId
deriving DecidableEq, Repr

/-- `testnet_genesis` from the source: assembles the genesis patch from the
invulnerable (account, aura-key) pairs, the root account and the para id. -/
def testnet_genesis (invulnerables : List (AccountId × AuraId)) (root : AccountId)
    (id : Nat) : GenesisState :=
  { parachainId := id
    invulnerables := invulnerables.map (fun p => p.1)
    candidacyBond := EXISTENTIAL_DEPOSIT * 16
    sessionKeys := invulnerables.map (fun p => (p.1, p.1, pop_session_keys p.2))
    safeXcmVersion := some SAFE_XCM_VERSION
    sudoKey := some root }

/-- The chain-type classification from `sc_service::ChainType`. -/
inductive ChainType where
  | Development
  | Local
  | Live
  | Custom (name : String)
deriving DecidableEq, Repr

/-- A chain-properties value: the source inserts string and integer values
into the `sc_chain_spec::Properties` map. -/
inductive PropVal where
  | str (s : String)
  | num (n : Nat)
deriving DecidableEq, Repr

/-- The assembled chain specification: the fields a preset builder sets.
Builder stages not invoked by a preset leave their field at the builder
default `none` (protocol id, properties). -/
structure ChainSpec where
  name : String
  id : String
  chainType : ChainType
  genesisPatch : GenesisState
  extensions : Extensions
  protocolId : Option String
  properties : Option (List (String × PropVal))
deriving DecidableEq, Repr

/-- The properties map built by both presets, in insertion order. The
development preset constructs it but never attaches it to the builder. -/
def unitProperties : List (String × PropVal) :=
  [("tokenSymbol", PropVal.str "UNIT"),
   ("tokenDecimals", PropVal.num 12),
   ("ss58Format", PropVal.num 42)]

/-- The invulnerable collator list shared by both presets: Alice then Bob. -/
def presetInvulnerables : List (AccountId × AuraId) :=
  [(get_account_id_from_seed "Alice", get_collator_keys_from_seed "Alice"),
   (get_account_id_from_seed "Bob", get_collator_keys_from_seed "Bob")]

/-- `development_config` from the source. The dev preset builds the
properties map but drops it: neither `with_protocol_id` nor
`with_properties` is called, so both stay at the builder default. -/
def development_config : ChainSpec :=
  { name := "Pop Network Development"
    id := "pop-dev"
    chainType := ChainType.Development
    genesisPatch := testnet_genesis presetInvulnerables
      (get_account_id_from_seed "Alice") PARA_ID
    extensions := { relay_chain := "rococo-local", para_id := PARA_ID }
    protocolId := none
    properties := none }

/-- `local_testnet_config` from the source: same genesis and extensions as
the dev preset, plus a protocol id and the attached properties map. -/
def local_testnet_config : ChainSpec :=
  { name := "Pop Network Local Testnet"
    id := "pop-local"
    chainType := ChainType.Local
    genesisPatch := testnet_genesis presetInvulnerables
      (get_account_id_from_seed "Alice") PARA_ID
    extensions := { relay_chain := "rococo-local", para_id := PARA_ID }
    protocolId := some "pop-local"
    properties := some unitProperties }

/-- Claim C1: for both presets the genesis document's parachain id equals the
`Extensions.para_id` attached to the spec, and both equal 9090. -/
theorem c1_para_id_consistency :
    development_config.genesisPatch.parachainId = development_config.extensions.para_id ∧
    local_testnet_config.genesisPatch.parachainId = local_testnet_config.extensions.para_id ∧
    development_config.genesisPatch.parachainId = 9090 ∧
    local_testnet_config.genesisPatch.parachainId = 9090 :=
  ⟨rfl, rfl, rfl, rfl⟩

/-- Claim C2: for every input list, `session.keys` and
`collatorSelection.invulnerables` both have the input's length; for both
presets that common length is 2. -/
theorem c2_cardinality :
    (∀ (inv : List (AccountId × AuraId)) (root : AccountId) (id : Nat),
      (testnet_genesis inv root id).sessionKeys.length = inv.length ∧
      (testnet_genesis inv root id).invulnerables.length = inv.length) ∧
    development_config.genesisPatch.sessionKeys.length = 2 ∧
    development_config.genesisPatch.invulnerables.length = 2 ∧
    local_testnet_config.genesisPatch.sessionKeys.length = 2 ∧
    local_testnet_config.genesisPatch.invulnerables.length = 2 := by
  refine ⟨fun inv root id => ⟨?_, ?_⟩, rfl, rfl, rfl, rfl⟩ <;>
    simp [testnet_genesis]

/-- Claim C3: for every input, the candidacy bond in the genesis document is
the existential deposit multiplied by exactly 16. -/
theorem c3_candidacy_bond (inv : List (AccountId × AuraId)) (root : AccountId) (id : Nat) :
    (testnet_genesis inv root id).candidacyBond = EXISTENTIAL_DEPOSIT * 16 :=
  rfl

/-- Claim C4: the session-key entries are exactly the triples
(account, account, bundled key), in input order, and the bundle sets the
single "aura" role to the given key. -/
theorem c4_session_triples :
    (∀ (inv : List (AccountId × AuraId)) (root : AccountId) (id : Nat),
      (testnet_genesis inv root id).sessionKeys =
        inv.map (fun p => (p.1, p.1, pop_session_keys p.2))) ∧
    ∀ k : AuraId, pop_session_keys k = SessionKeys.mk k :=
  ⟨fun _ _ _ => rfl, fun _ => rfl⟩

/-- Claim C6: in both presets `sudo.key` is present, equals the account
derived from seed "Alice", and that account is among the invulnerable
accounts passed to the builder. -/
theorem c6_sudo_alice :
    development_config.genesisPatch.sudoKey = some (get_account_id_from_seed "Alice") ∧
    local_testnet_config.genesisPatch.sudoKey = some (get_account_id_from_seed "Alice") ∧
    get_account_id_from_seed "Alice" ∈ presetInvulnerables.map Prod.fst ∧
    get_account_id_from_seed "Alice" ∈ development_config.genesisPatch.invulnerables ∧
    get_account_id_from_seed "Alice" ∈ local_testnet_config.genesisPatch.invulnerables := by
  refine ⟨rfl, rfl, ?_, ?_, ?_⟩ <;> decide

/-- Claim C7: the local-testnet preset attaches the UNIT/12/42 properties and
a non-empty protocol id; the development preset attaches no properties. -/
theorem c7_properties :
    local_testnet_config.properties =
      some [("tokenSymbol", PropVal.str "UNIT"),
            ("tokenDecimals", PropVal.num 12),
            ("ss58Format", PropVal.num 42)] ∧
    local_testnet_config.protocolId = some "pop-local" ∧
    "pop-local" ≠ "" ∧
    development_config.properties = none := by
  refine ⟨rfl, rfl, ?_, rfl⟩
  decide

/-- Claim C8: `collatorSelection.invulnerables` is the account component of
each input pair, in input order. -/
theorem c8_invulnerables_projection (inv : List (AccountId × AuraId)) (root : AccountId)
    (id : Nat) :
    (testnet_genesis inv root id).invulnerables = inv.map Prod.fst :=
  rfl

/-- An `Extensions` document with a field named anything other than
`relay_chain` or `para_id` is rejected by the state-passing deserializer,
whatever fields were already consumed. -/
theorem deserializeFields_unknown_none (doc : List (String × FieldVal))
    (rc : Option String) (pid : Option Nat)
    (h : ∃ kv ∈ doc, kv.1 ≠ "relay_chain" ∧ kv.1 ≠ "para_id") :
    deserializeFields doc rc pid = none := by
  induction doc generalizing rc pid with
  | nil => exact absurd h (by simp)
  | cons kv rest ih =>
    obtain ⟨kv', hmem, hne⟩ := h
    rcases List.mem_cons.mp hmem with hhead | htail
    · subst hhead
      obtain ⟨k, v⟩ := kv'
      simp only [deserializeFields]
      rw [if_neg hne.1, if_neg hne.2]
    · obtain ⟨k, v⟩ := kv
      by_cases hk1 : k = "relay_chain"
      · subst hk1
        simp only [deserializeFields, if_pos rfl]
        cases v with
        | str s =>
          cases rc with
          | none => exact ih (some s) pid ⟨kv', htail, hne⟩
          | some r => rfl
        | num n => cases rc <;> rfl
      · by_cases hk2 : k = "para_id"
        · subst hk2
          simp only [deserializeFields, if_neg hk1, if_true]
          cases v with
          | str s => cases pid <;> rfl
          | num n =>
            cases pid with
            | none => exact ih rc (some n) ⟨kv', htail, hne⟩
            | some p => rfl
        · simp only [deserializeFields]
          rw [if_neg hk1, if_neg hk2]

/-- Claim C5: parsing an `Extensions` document containing any top-level field
other than `relay_chain` and `para_id` fails; unknown fields are never
silently ignored. -/
theorem c5_unknown_field_rejected (doc : List (String × FieldVal))
    (h : ∃ kv ∈ doc, kv.1 ≠ "relay_chain" ∧ kv.1 ≠ "para_id") :
    Extensions.deserialize doc = none :=
  deserializeFields_unknown_none doc none none h

/-- Witness for claim C5: a document carrying the two real fields plus an
unrecognized `badField` is rejected by the deserializer. -/
theorem c5_unknown_field_rejected_witness :
    (∃ kv ∈ ([("relay_chain", FieldVal.str "rococo-local"),
              ("para_id", FieldVal.num 9090),
              ("badField", FieldVal.num 1)] : List (String × FieldVal)),
        kv.1 ≠ "relay_chain" ∧ kv.1 ≠ "para_id") ∧
    Extensions.deserialize
      [("relay_chain", FieldVal.str "rococo-local"),
       ("para_id", FieldVal.num 9090),
       ("badField", FieldVal.num 1)] = none :=
  ⟨⟨("badField", FieldVal.num 1), by decide, by decide, by decide⟩,
   c5_unknown_field_rejected _
     ⟨("badField", FieldVal.num 1), by decide, by decide, by decide⟩⟩

/-- Counterexample to claim C9 as stated: when the same account is passed
twice to the builder, it appears twice — not exactly once — in the genesis
document's invulnerables. -/
theorem c9_counterexample :
    ¬ (∀ a ∈ (testnet_genesis
          [(get_account_id_from_seed "Alice", get_collator_keys_from_seed "Alice"),
           (get_account_id_from_seed "Alice", get_collator_keys_from_seed "Alice")]
          (get_account_id_from_seed "Alice") 9090).invulnerables,
        (testnet_genesis
          [(get_account_id_from_seed "Alice", get_collator_keys_from_seed "Alice"),
           (get_account_id_from_seed "Alice", get_collator_keys_from_seed "Alice")]
          (get_account_id_from_seed "Alice") 9090).invulnerables.count a = 1) := by
  decide

/-- Claim C9 (amended): for every input list whose account components are
pairwise distinct — as in both presets — every invulnerable account appears
exactly once in the genesis document's invulnerables. -/
theorem c9_accounts_unique (inv : List (AccountId × AuraId)) (root : AccountId) (id : Nat)
    (h : (inv.map Prod.fst).Nodup) :
    ∀ a ∈ (testnet_genesis inv root id).invulnerables,
      (testnet_genesis inv root id).invulnerables.count a = 1 := by
  intro a ha
  have hproj : (testnet_genesis inv root id).invulnerables = inv.map Prod.fst := rfl
  rw [hproj] at ha ⊢
  exact List.count_eq_one_of_mem h ha

/-- Witness for the amended claim C9: the presets' Alice/Bob input has
pairwise-distinct accounts and each appears exactly once. -/
theorem c9_accounts_unique_witness :
    (presetInvulnerables.map Prod.fst).Nodup ∧
    ∀ a ∈ (testnet_genesis presetInvulnerables
        (get_account_id_from_seed "Alice") 9090).invulnerables,
      (testnet_genesis presetInvulnerables
        (get_account_id_from_seed "Alice") 9090).invulnerables.count a = 1 :=
  ⟨by decide,
   c9_accounts_unique presetInvulnerables (get_account_id_from_seed "Alice") 9090 (by decide)⟩

/-- Claim C10: the two presets share their extensions (relay chain
"rococo-local", para id 9090) and their entire genesis patch (the Alice/Bob
collators in that order, root Alice, para id 9090, the bond and the XCM
version), and differ in name, id, chain type, protocol id and properties —
the only remaining fields of the assembled specification. -/
theorem c10_presets_agree :
    development_config.extensions = local_testnet_config.extensions ∧
    development_config.extensions = Extensions.mk "rococo-local" 9090 ∧
    development_config.genesisPatch = local_testnet_config.genesisPatch ∧
    development_config.genesisPatch =
      testnet_genesis
        [(get_account_id_from_seed "Alice", get_collator_keys_from_seed "Alice"),
         (get_account_id_from_seed "Bob", get_collator_keys_from_seed "Bob")]
        (get_account_id_from_seed "Alice") 9090 ∧
    development_config.name ≠ local_testnet_config.name ∧
    development_config.id ≠ local_testnet_config.id ∧
    development_config.chainType ≠ local_testnet_config.chainType ∧
    development_config.protocolId ≠ local_testnet_config.protocolId ∧
    development_config.properties ≠ local_testnet_config.properties := by
  refine ⟨rfl, rfl, rfl, rfl, ?_, ?_, ?_, ?_, ?_⟩ <;> decide

end PopNode
